import Mathlib

/-!
Verification of the FastAPI chat-relay backend
(`src/Application/fastapi_app/app`): schema layer (`schemas/chat.py`),
error envelope layer (`core/exceptions.py`), endpoint handlers
(`api/chat.py`) and the exception-handler registration (`main.py`),
embedded shallowly in Lean.
-/

namespace ChatRelay

/-- JSON values, as manipulated by the Python code (`json.dumps`,
pydantic `model_dump`).  Numbers are modelled as rationals. -/
inductive JsonValue where
  | null : JsonValue
  | bool (b : Bool) : JsonValue
  | num (q : Rat) : JsonValue
  | str (s : String) : JsonValue
  | arr (xs : List JsonValue) : JsonValue
  | obj (kvs : List (String × JsonValue)) : JsonValue

/-- A JSON object body: ordered key/value pairs. -/
abbrev Jobj := List (String × JsonValue)

/-- First value bound to key `k`, like Python dict lookup on a parsed body. -/
def jlookup (o : Jobj) (k : String) : Option JsonValue :=
  match o with
  | [] => none
  | (k', v) :: rest => if k' = k then some v else jlookup rest k

/-- Python truthiness of a JSON value (`if event.data:`):
`None`, `False`, `0`, `""`, `[]`, `{}` are falsy. -/
def pyTruthy : JsonValue → Bool
  | .null => false
  | .bool b => b
  | .num q => q ≠ 0
  | .str s => s ≠ ""
  | .arr xs => !xs.isEmpty
  | .obj kvs => !kvs.isEmpty

/-- Python truthiness of a possibly-absent value. -/
def pyTruthyOpt : Option JsonValue → Bool
  | none => false
  | some v => pyTruthy v

/-- Minimal JSON string escaping (quote and backslash), standing for the
escaping performed by `json.dumps`; the claims depend only on the framing
around the serialized payload, not the escaping scheme. -/
def jsonEscape (s : String) : String :=
  String.join (s.toList.map fun c =>
    if c = '"' then "\\\"" else if c = '\\' then "\\\\" else String.singleton c)

mutual
/-- Serialization of a JSON value, standing for Python `json.dumps`. -/
def jsonDumps : JsonValue → String
  | .null => "null"
  | .bool b => if b then "true" else "false"
  | .num q => if q.den = 1 then toString q.num else toString q.num ++ "/" ++ toString q.den
  | .str s => "\"" ++ jsonEscape s ++ "\""
  | .arr xs => "[" ++ jsonDumpsList xs ++ "]"
  | .obj kvs => "\x7b" ++ jsonDumpsObj kvs ++ "\x7d"

def jsonDumpsList : List JsonValue → String
  | [] => ""
  | [v] => jsonDumps v
  | v :: rest => jsonDumps v ++ ", " ++ jsonDumpsList rest

def jsonDumpsObj : List (String × JsonValue) → String
  | [] => ""
  | [(k, v)] => "\"" ++ jsonEscape k ++ "\": " ++ jsonDumps v
  | (k, v) :: rest => "\"" ++ jsonEscape k ++ "\": " ++ jsonDumps v ++ ", " ++ jsonDumpsObj rest
end

/-- `json.dumps(event.data)` where `event.data` may be `None`. -/
def jsonDumpsOpt : Option JsonValue → String
  | none => "null"
  | some v => jsonDumps v

/-- One provider stream event (`ai_chat_service.chat_completion_stream`
yields objects with a `type` tag and an optional `data` payload,
per the collaborator contract in the spec §6). -/
structure StreamEvent where
  type : String
  data : Option JsonValue

/-- The `generate` inner async generator of both chat endpoints
(`api/chat.py` lines 47–54 and 92–99): for each `"message"` event with
truthy data emit `data: <json.dumps(data)>\n\n`; on a `"done"` event emit
`data: [DONE]\n\n` and `break`; other events are skipped.  The upstream
event sequence is modelled as a list, the generator's output as the list
of emitted frames. -/
def generate : List StreamEvent → List String
  | [] => []
  | e :: rest =>
    if e.type = "message" ∧ pyTruthyOpt e.data then
      ("data: " ++ jsonDumpsOpt e.data ++ "\n\n") :: generate rest
    else if e.type = "done" then
      ["data: [DONE]\n\n"]
    else
      generate rest

/-- The frame a single event contributes before the terminating event:
`some frame` for a truthy `"message"` event, `none` otherwise. -/
def msgFrame (e : StreamEvent) : Option String :=
  if e.type = "message" ∧ pyTruthyOpt e.data then
    some ("data: " ++ jsonDumpsOpt e.data ++ "\n\n")
  else
    none

/-- Whether the upstream event list contains a `"done"` event. -/
def hasDone (evs : List StreamEvent) : Bool :=
  evs.any (fun e => e.type = "done")

/-! ## Schema layer (`schemas/chat.py`)

Pydantic models are embedded as structures together with a validator
(`parse…`, returning `none` on rejection) and a serializer (`dump…`,
standing for `model_dump`, which emits every field, `None` as `null`). -/

/-- Decode a required string field. -/
def decStr : JsonValue → Option String
  | .str s => some s
  | _ => none

/-- Decode a boolean. -/
def decBool : JsonValue → Option Bool
  | .bool b => some b
  | _ => none

/-- Decode a number as a rational (`float` fields). -/
def decRat : JsonValue → Option Rat
  | .num q => some q
  | _ => none

/-- Decode an integer-valued number (`int` fields). -/
def decInt : JsonValue → Option Int
  | .num q => if q.den = 1 then some q.num else none
  | _ => none

/-- Decode a JSON object into its key/value list (`Dict[str, Any]` fields). -/
def decObj : JsonValue → Option Jobj
  | .obj kvs => some kvs
  | _ => none

/-- Decode a string restricted to a closed `Literal[...]` enumeration. -/
def decLitOf (lits : List String) : JsonValue → Option String
  | .str s => if s ∈ lits then some s else none
  | _ => none

/-- Decode each element of a JSON array as a string (`List[str]`). -/
def decStrEach : List JsonValue → Option (List String)
  | [] => some []
  | .str s :: rest => (decStrEach rest).map (fun l => s :: l)
  | _ => none

/-- Decode each element of a JSON array as an object (`List[Dict[str, Any]]`). -/
def decObjEach : List JsonValue → Option (List Jobj)
  | [] => some []
  | .obj kvs :: rest => (decObjEach rest).map (fun l => kvs :: l)
  | _ => none

/-- Decode a `List[str]` field. -/
def decStrList : JsonValue → Option (List String)
  | .arr xs => decStrEach xs
  | _ => none

/-- Decode a `List[Dict[str, Any]]` field. -/
def decObjList : JsonValue → Option (List Jobj)
  | .arr xs => decObjEach xs
  | _ => none

/-- Decode a `Union[str, List[str]]` field (the `stop` parameter). -/
def decStrOrStrList : JsonValue → Option (String ⊕ List String)
  | .str s => some (.inl s)
  | .arr xs => (decStrEach xs).map .inr
  | _ => none

/-- Decode a `Union[str, Dict[str, Any]]` field (the `tool_choice` parameter). -/
def decStrOrObj : JsonValue → Option (String ⊕ Jobj)
  | .str s => some (.inl s)
  | .obj kvs => some (.inr kvs)
  | _ => none

/-- Decode the entries of a `Dict[str, float]` (the `logit_bias` parameter). -/
def decRatPairs : List (String × JsonValue) → Option (List (String × Rat))
  | [] => some []
  | (k, .num q) :: rest => (decRatPairs rest).map (fun l => (k, q) :: l)
  | _ => none

/-- Decode a `Dict[str, float]` field. -/
def decLogitBias : JsonValue → Option (List (String × Rat))
  | .obj kvs => decRatPairs kvs
  | _ => none

/-- Decode an `Optional[T] = Field(default)` field: absent means the
declared default, an explicit `null` means `None`, otherwise the base
decoder applies. -/
def decOpt (dec : JsonValue → Option α) (dflt : Option α) :
    Option JsonValue → Option (Option α)
  | none => some dflt
  | some .null => some none
  | some v => (dec v).map some

/-- Decode a non-`Optional` field with a declared default: absent means
the default, anything present (including `null`) must satisfy the base
decoder. -/
def decD (dec : JsonValue → Option α) (dflt : α) : Option JsonValue → Option α
  | none => some dflt
  | some v => dec v

/-- Decode a required field: absent is a validation error. -/
def decReq (dec : JsonValue → Option α) : Option JsonValue → Option α
  | none => none
  | some v => dec v

/-- Encode an optional value, `None` as `null` (as `model_dump` does). -/
def encOpt (enc : α → JsonValue) : Option α → JsonValue
  | none => .null
  | some v => enc v

/-- Encode an integer as a JSON number. -/
def encInt (i : Int) : JsonValue := .num (i : Rat)

/-- Encode a `List[str]` value. -/
def encStrList (l : List String) : JsonValue := .arr (l.map .str)

/-- Encode a `Union[str, List[str]]` value. -/
def encStrOrStrList : String ⊕ List String → JsonValue
  | .inl s => .str s
  | .inr l => .arr (l.map .str)

/-- Encode a `Union[str, Dict[str, Any]]` value. -/
def encStrOrObj : String ⊕ Jobj → JsonValue
  | .inl s => .str s
  | .inr o => .obj o

/-- Encode a `Dict[str, float]` value. -/
def encLogitBias (ps : List (String × Rat)) : JsonValue :=
  .obj (ps.map fun p => (p.1, .num p.2))

/-- The closed `role` enumeration of `ChatMessage`. -/
def roleLits : List String := ["system", "user", "assistant", "function", "tool"]

/-- The closed `agent_type` enumeration of `AgentConfig`. -/
def agentTypeLits : List String := ["medical", "general", "specialist"]

/-- The closed `reasoning_mode` enumeration of `AgentConfig`. -/
def reasoningLits : List String := ["chain_of_thought", "tree_of_thought", "reflection"]

/-- The closed `memory_type` enumeration of `MemoryConfig`. -/
def memoryTypeLits : List String := ["conversation", "episodic", "semantic", "working"]

/-- The closed `retention_policy` enumeration of `MemoryConfig`. -/
def retentionLits : List String := ["session", "persistent", "temporary"]

/-- The closed `retrieval_strategy` enumeration of `MemoryConfig`. -/
def retrievalLits : List String := ["recent", "relevant", "hybrid"]

/-- `ChatMessage` (`schemas/chat.py` lines 9–15). -/
structure ChatMessage where
  role : String
  content : Option String
  name : Option String
  function_call : Option Jobj
  tool_calls : Option (List Jobj)
  tool_call_id : Option String

/-- Validate one element of the `messages` array as a `ChatMessage`. -/
def parseChatMessage : JsonValue → Option ChatMessage
  | .obj o => do
    let role ← decReq (decLitOf roleLits) (jlookup o "role")
    let content ← decOpt decStr none (jlookup o "content")
    let nm ← decOpt decStr none (jlookup o "name")
    let function_call ← decOpt decObj none (jlookup o "function_call")
    let tool_calls ← decOpt decObjList none (jlookup o "tool_calls")
    let tool_call_id ← decOpt decStr none (jlookup o "tool_call_id")
    pure ⟨role, content, nm, function_call, tool_calls, tool_call_id⟩
  | _ => none

/-- `model_dump` of a `ChatMessage`. -/
def dumpChatMessage (m : ChatMessage) : JsonValue :=
  .obj [("role", .str m.role),
        ("content", encOpt .str m.content),
        ("name", encOpt .str m.name),
        ("function_call", encOpt .obj m.function_call),
        ("tool_calls", encOpt (fun l => .arr (l.map .obj)) m.tool_calls),
        ("tool_call_id", encOpt .str m.tool_call_id)]

/-- Validate the `messages` array elementwise. -/
def parseMessages : List JsonValue → Option (List ChatMessage)
  | [] => some []
  | v :: rest => do
    let m ← parseChatMessage v
    let ms ← parseMessages rest
    pure (m :: ms)

/-- `Tool` (`schemas/chat.py` lines 27–29): `type` is `Literal['function']`
with default `'function'`; `function` is a required `Dict[str, Any]`. -/
structure Tool where
  type : String
  function : Jobj

/-- Validate one element of the `tools` array as a `Tool`. -/
def parseTool : JsonValue → Option Tool
  | .obj o => do
    let ty ← decD (decLitOf ["function"]) "function" (jlookup o "type")
    let fn ← decReq decObj (jlookup o "function")
    pure ⟨ty, fn⟩
  | _ => none

/-- `model_dump` of a `Tool`. -/
def dumpTool (t : Tool) : JsonValue :=
  .obj [("type", .str t.type), ("function", .obj t.function)]

/-- Validate the `tools` array elementwise. -/
def parseTools : List JsonValue → Option (List Tool)
  | [] => some []
  | v :: rest => do
    let t ← parseTool v
    let ts ← parseTools rest
    pure (t :: ts)

/-- `AgentConfig` (`schemas/chat.py` lines 51–60). -/
structure AgentConfig where
  agent_type : String
  specialization : Option String
  personality : Option String
  guidelines : Option (List String)
  tools_enabled : Option (List String)
  max_iterations : Option Int
  reasoning_mode : Option String

/-- Validate an `AgentConfig` object. -/
def parseAgentConfig : JsonValue → Option AgentConfig
  | .obj o => do
    let at_ ← decReq (decLitOf agentTypeLits) (jlookup o "agent_type")
    let sp ← decOpt decStr none (jlookup o "specialization")
    let pe ← decOpt decStr none (jlookup o "personality")
    let gu ← decOpt decStrList none (jlookup o "guidelines")
    let te ← decOpt decStrList none (jlookup o "tools_enabled")
    let mi ← decOpt decInt (some 3) (jlookup o "max_iterations")
    let rm ← decOpt (decLitOf reasoningLits) (some "chain_of_thought")
      (jlookup o "reasoning_mode")
    pure ⟨at_, sp, pe, gu, te, mi, rm⟩
  | _ => none

/-- `model_dump` of an `AgentConfig`. -/
def dumpAgentConfig (a : AgentConfig) : JsonValue :=
  .obj [("agent_type", .str a.agent_type),
        ("specialization", encOpt .str a.specialization),
        ("personality", encOpt .str a.personality),
        ("guidelines", encOpt encStrList a.guidelines),
        ("tools_enabled", encOpt encStrList a.tools_enabled),
        ("max_iterations", encOpt encInt a.max_iterations),
        ("reasoning_mode", encOpt .str a.reasoning_mode)]

/-- `MemoryConfig` (`schemas/chat.py` lines 103–112). -/
structure MemoryConfig where
  memory_type : String
  retention_policy : Option String
  max_memory_size : Option Int
  compression_enabled : Option Bool
  retrieval_strategy : Option String

/-- Validate a `MemoryConfig` object. -/
def parseMemoryConfig : JsonValue → Option MemoryConfig
  | .obj o => do
    let mt ← decReq (decLitOf memoryTypeLits) (jlookup o "memory_type")
    let rp ← decOpt (decLitOf retentionLits) (some "session")
      (jlookup o "retention_policy")
    let mm ← decOpt decInt (some 100) (jlookup o "max_memory_size")
    let ce ← decOpt decBool (some true) (jlookup o "compression_enabled")
    let rs ← decOpt (decLitOf retrievalLits) (some "hybrid")
      (jlookup o "retrieval_strategy")
    pure ⟨mt, rp, mm, ce, rs⟩
  | _ => none

/-- `model_dump` of a `MemoryConfig`. -/
def dumpMemoryConfig (m : MemoryConfig) : JsonValue :=
  .obj [("memory_type", .str m.memory_type),
        ("retention_policy", encOpt .str m.retention_policy),
        ("max_memory_size", encOpt encInt m.max_memory_size),
        ("compression_enabled", encOpt .bool m.compression_enabled),
        ("retrieval_strategy", encOpt .str m.retrieval_strategy)]

/-- `MCPConfig` (`schemas/chat.py` lines 127–132): all fields carry
non-`Optional` declared defaults. -/
structure MCPConfig where
  context_window_size : Int
  context_compression : Bool
  relevance_threshold : Rat
  context_sources : List String
  dynamic_context : Bool

/-- Validate an `MCPConfig` object. -/
def parseMCPConfig : JsonValue → Option MCPConfig
  | .obj o => do
    let cw ← decD decInt 4096 (jlookup o "context_window_size")
    let cc ← decD decBool true (jlookup o "context_compression")
    let rt ← decD decRat (7 / 10) (jlookup o "relevance_threshold")
    let cs ← decD decStrList [] (jlookup o "context_sources")
    let dc ← decD decBool true (jlookup o "dynamic_context")
    pure ⟨cw, cc, rt, cs, dc⟩
  | _ => none

/-- `model_dump` of an `MCPConfig`. -/
def dumpMCPConfig (m : MCPConfig) : JsonValue :=
  .obj [("context_window_size", encInt m.context_window_size),
        ("context_compression", .bool m.context_compression),
        ("relevance_threshold", .num m.relevance_threshold),
        ("context_sources", encStrList m.context_sources),
        ("dynamic_context", .bool m.dynamic_context)]

/-- `ChatCompletionRequest` (`schemas/chat.py` lines 136–163). -/
structure ChatCompletionRequest where
  model : String
  messages : List ChatMessage
  max_tokens : Option Int
  temperature : Option Rat
  top_p : Option Rat
  n : Option Int
  stream : Option Bool
  stop : Option (String ⊕ List String)
  presence_penalty : Option Rat
  frequency_penalty : Option Rat
  logit_bias : Option (List (String × Rat))
  user : Option String
  tools : Option (List Tool)
  tool_choice : Option (String ⊕ Jobj)
  agent_config : Option AgentConfig
  memory_config : Option MemoryConfig
  mcp_config : Option MCPConfig
  context_id : Option String
  session_id : Option String
  patient_id : Option Int
  include_patient_context : Option Bool
  metadata : Option Jobj

/-- The OpenAI-standard generation fields of `ChatCompletionRequest`
(`schemas/chat.py` lines 137–148), grouped for staged validation. -/
structure RequestCore where
  model : String
  messages : List ChatMessage
  max_tokens : Option Int
  temperature : Option Rat
  top_p : Option Rat
  n : Option Int
  stream : Option Bool
  stop : Option (String ⊕ List String)
  presence_penalty : Option Rat
  frequency_penalty : Option Rat
  logit_bias : Option (List (String × Rat))
  user : Option String

/-- The tool and extension fields of `ChatCompletionRequest`
(`schemas/chat.py` lines 149–163), grouped for staged validation. -/
structure RequestExtensions where
  tools : Option (List Tool)
  tool_choice : Option (String ⊕ Jobj)
  agent_config : Option AgentConfig
  memory_config : Option MemoryConfig
  mcp_config : Option MCPConfig
  context_id : Option String
  session_id : Option String
  patient_id : Option Int
  include_patient_context : Option Bool
  metadata : Option Jobj

/-- Validate the OpenAI-standard generation fields of a request body:
required `model` and `messages`, the rest optional with the declared
defaults. -/
def parseRequestCore (o : Jobj) : Option RequestCore := do
  let model ← decReq decStr (jlookup o "model")
  let messages ← decReq (fun v => match v with
    | .arr xs => parseMessages xs
    | _ => none) (jlookup o "messages")
  let max_tokens ← decOpt decInt (some 1000) (jlookup o "max_tokens")
  let temperature ← decOpt decRat (some (7 / 10)) (jlookup o "temperature")
  let top_p ← decOpt decRat (some 1) (jlookup o "top_p")
  let n ← decOpt decInt (some 1) (jlookup o "n")
  let stream ← decOpt decBool (some false) (jlookup o "stream")
  let stop ← decOpt decStrOrStrList none (jlookup o "stop")
  let presence_penalty ← decOpt decRat (some 0) (jlookup o "presence_penalty")
  let frequency_penalty ← decOpt decRat (some 0) (jlookup o "frequency_penalty")
  let logit_bias ← decOpt decLogitBias none (jlookup o "logit_bias")
  let user_ ← decOpt decStr none (jlookup o "user")
  pure ⟨model, messages, max_tokens, temperature, top_p, n, stream, stop,
        presence_penalty, frequency_penalty, logit_bias, user_⟩

/-- Validate the tool and extension fields of a request body, all
optional with the declared defaults. -/
def parseRequestExtensions (o : Jobj) : Option RequestExtensions := do
  let tools ← decOpt (fun v => match v with
    | .arr xs => parseTools xs
    | _ => none) none (jlookup o "tools")
  let tool_choice ← decOpt decStrOrObj none (jlookup o "tool_choice")
  let agent_config ← decOpt parseAgentConfig none (jlookup o "agent_config")
  let memory_config ← decOpt parseMemoryConfig none (jlookup o "memory_config")
  let mcp_config ← decOpt parseMCPConfig none (jlookup o "mcp_config")
  let context_id ← decOpt decStr none (jlookup o "context_id")
  let session_id ← decOpt decStr none (jlookup o "session_id")
  let patient_id ← decOpt decInt none (jlookup o "patient_id")
  let include_patient_context ← decOpt decBool (some false)
    (jlookup o "include_patient_context")
  let metadata ← decOpt decObj none (jlookup o "metadata")
  pure ⟨tools, tool_choice, agent_config, memory_config, mcp_config,
        context_id, session_id, patient_id, include_patient_context, metadata⟩

/-- Validate a JSON request body as a `ChatCompletionRequest` (the
pydantic validation induced by the field declarations: required `model`
and `messages`, every other field optional with its declared default;
unknown keys are ignored). -/
def parseChatCompletionRequest (o : Jobj) : Option ChatCompletionRequest := do
  let a ← parseRequestCore o
  let b ← parseRequestExtensions o
  pure ⟨a.model, a.messages, a.max_tokens, a.temperature, a.top_p, a.n,
        a.stream, a.stop, a.presence_penalty, a.frequency_penalty,
        a.logit_bias, a.user, b.tools, b.tool_choice, b.agent_config,
        b.memory_config, b.mcp_config, b.context_id, b.session_id,
        b.patient_id, b.include_patient_context, b.metadata⟩

/-- `model_dump` of a `ChatCompletionRequest`: every field is emitted,
`None` as `null`, nested models recursively dumped. -/
def dumpChatCompletionRequest (r : ChatCompletionRequest) : Jobj :=
  [("model", .str r.model),
   ("messages", .arr (r.messages.map dumpChatMessage)),
   ("max_tokens", encOpt encInt r.max_tokens),
   ("temperature", encOpt .num r.temperature),
   ("top_p", encOpt .num r.top_p),
   ("n", encOpt encInt r.n),
   ("stream", encOpt .bool r.stream),
   ("stop", encOpt encStrOrStrList r.stop),
   ("presence_penalty", encOpt .num r.presence_penalty),
   ("frequency_penalty", encOpt .num r.frequency_penalty),
   ("logit_bias", encOpt encLogitBias r.logit_bias),
   ("user", encOpt .str r.user),
   ("tools", encOpt (fun ts => .arr (ts.map dumpTool)) r.tools),
   ("tool_choice", encOpt encStrOrObj r.tool_choice),
   ("agent_config", encOpt dumpAgentConfig r.agent_config),
   ("memory_config", encOpt dumpMemoryConfig r.memory_config),
   ("mcp_config", encOpt dumpMCPConfig r.mcp_config),
   ("context_id", encOpt .str r.context_id),
   ("session_id", encOpt .str r.session_id),
   ("patient_id", encOpt encInt r.patient_id),
   ("include_patient_context", encOpt .bool r.include_patient_context),
   ("metadata", encOpt .obj r.metadata)]

/-- `ChatCompletionResponse` (`schemas/chat.py` lines 180–190). -/
structure ChatCompletionResponse where
  id : String
  object : String
  created : Int
  model : String
  choices : List Jobj
  usage : Option (List (String × Int))
  agent_info : Option Jobj
  memory_info : Option Jobj
  tool_execution_info : Option Jobj

/-! ## Error envelope layer (`core/exceptions.py`) -/

/-- `ErrorDetail` (`core/exceptions.py` lines 15–20). -/
structure ErrorDetail where
  type : String
  message : String
  field : Option String
  code : Option String

/-- `ErrorResponse` (`core/exceptions.py` lines 23–32).  The handlers
always pass a concrete details list (`details or []`), so `details` is
modelled as a list. -/
structure ErrorResponse where
  success : Bool
  error : String
  message : String
  details : List ErrorDetail
  status_code : Nat
  timestamp : String
  path : Option String
  request_id : Option String

/-- An `HTTPException` value as the handlers observe it: FastAPI's
`HTTPException` carries `status_code` and `detail`; the
`BusinessException` subclass (`core/exceptions.py` lines 35–47)
additionally sets `error_code` and `field`.  `isBusiness` records
whether the Python object is an instance of `BusinessException`. -/
structure HTTPExc where
  status_code : Nat
  detail : String
  error_code : Option String
  field : Option String
  isBusiness : Bool

/-- `BusinessException.__init__` (`core/exceptions.py` lines 37–47).
The Python defaults are `status_code=400`, `detail="业务处理异常"`,
`error_code=None`, `field=None`. -/
def BusinessException (status_code : Nat) (detail : String)
    (error_code : Option String) (field : Option String) : HTTPExc :=
  ⟨status_code, detail, error_code, field, true⟩

/-- `NotFoundException` (`core/exceptions.py` lines 95–106): status 404,
error code `"NOT_FOUND"`, no field. -/
def NotFoundException (detail : String) : HTTPExc :=
  BusinessException 404 detail (some "NOT_FOUND") none

/-- `AuthenticationException` (`core/exceptions.py` lines 66–78):
status 401, error code `"AUTHENTICATION_ERROR"`, no field. -/
def AuthenticationException (detail : String) : HTTPExc :=
  BusinessException 401 detail (some "AUTHENTICATION_ERROR") none

/-- A plain (non-`HTTPException`) Python exception: its type name and
its `str()` form. -/
structure GenExc where
  typeName : String
  msg : String

/-- Any exception a handler body can raise. -/
inductive PyExc where
  | httpExc (e : HTTPExc)
  | genExc (e : GenExc)

/-- Python `str()` of an exception: Starlette's `HTTPException.__str__`
formats as `"<status_code>: <detail>"`; a plain exception's `str()` is
its message. -/
def strExc : PyExc → String
  | .httpExc e => toString e.status_code ++ ": " ++ e.detail
  | .genExc e => e.msg

/-- Python truthiness of an optional string (`if exc.field or
exc.error_code:`): `None` and `""` are falsy. -/
def pyTruthyStr : Option String → Bool
  | none => false
  | some s => s ≠ ""

/-- Python `a or b` on an optional string and a fixed fallback
(`exc.error_code or "BUSINESS_ERROR"`). -/
def pyOrStr (a : Option String) (b : String) : String :=
  match a with
  | some s => if s = "" then b else s
  | none => b

/-- The `error_type_map` of `http_exception_handler`
(`core/exceptions.py` lines 170–179) with its `.get(…, "HTTP_ERROR")`
fallback. -/
def errorTypeMap (status : Nat) : String :=
  if status = 400 then "BAD_REQUEST"
  else if status = 401 then "UNAUTHORIZED"
  else if status = 403 then "FORBIDDEN"
  else if status = 404 then "NOT_FOUND"
  else if status = 405 then "METHOD_NOT_ALLOWED"
  else if status = 409 then "CONFLICT"
  else if status = 422 then "UNPROCESSABLE_ENTITY"
  else if status = 500 then "INTERNAL_SERVER_ERROR"
  else "HTTP_ERROR"

/-- `create_error_response` (`core/exceptions.py` lines 123–143).
`now` stands for `datetime.utcnow().isoformat()` and `path` for
`request.url.path`; the handlers never pass a `request_id`. -/
def create_error_response (path : String) (now : String) (status_code : Nat)
    (error : String) (message : String) (details : List ErrorDetail) :
    ErrorResponse :=
  ⟨false, error, message, details, status_code, now ++ "Z", some path, none⟩

/-- `http_exception_handler` (`core/exceptions.py` lines 146–191),
returning the `JSONResponse` status together with the envelope. -/
def http_exception_handler (now path : String) (exc : HTTPExc) :
    Nat × ErrorResponse :=
  if exc.isBusiness then
    let details :=
      if pyTruthyStr exc.field || pyTruthyStr exc.error_code then
        [ErrorDetail.mk "business_error" exc.detail exc.field exc.error_code]
      else []
    (exc.status_code,
     create_error_response path now exc.status_code
       (pyOrStr exc.error_code "BUSINESS_ERROR") exc.detail details)
  else
    (exc.status_code,
     create_error_response path now exc.status_code
       (errorTypeMap exc.status_code) exc.detail [])

/-- One element of a validator location tuple: a mapping key or a
sequence index. -/
inductive LocItem where
  | key (s : String)
  | idx (n : Nat)

/-- Python `str(loc)` on a location element. -/
def locStr : LocItem → String
  | .key s => s
  | .idx n => toString n

/-- One entry of `RequestValidationError.errors()`: location tuple,
message and error type. -/
structure RawError where
  loc : List LocItem
  msg : String
  type : String

/-- The field-path computation of `validation_exception_handler`
(`core/exceptions.py` line 204): dot-join `str(loc)` over
`error["loc"][1:]` when the tuple has more than one element, else
`None`. -/
def field_name (loc : List LocItem) : Option String :=
  if loc.length > 1 then
    some (String.intercalate "." ((loc.drop 1).map locStr))
  else none

/-- `validation_exception_handler` (`core/exceptions.py` lines
194–223). -/
def validation_exception_handler (now path : String)
    (errors : List RawError) : Nat × ErrorResponse :=
  (422,
   create_error_response path now 422 "VALIDATION_ERROR" "请求数据验证失败"
     (errors.map fun e =>
       ErrorDetail.mk "validation_error" e.msg (field_name e.loc) (some e.type)))

/-- `is_development` in `general_exception_handler`
(`core/exceptions.py` line 233): `os.getenv("ENVIRONMENT",
"development") == "development"`; an unset variable counts as
development mode. -/
def isDevelopment (environment : Option String) : Bool :=
  environment.getD "development" = "development"

/-- `general_exception_handler` (`core/exceptions.py` lines 226–257). -/
def general_exception_handler (environment : Option String)
    (now path : String) (exc : GenExc) : Nat × ErrorResponse :=
  let message :=
    if isDevelopment environment then exc.typeName ++ ": " ++ exc.msg
    else "服务器内部错误，请稍后重试"
  let details :=
    if isDevelopment environment then
      [ErrorDetail.mk "system_error" exc.msg none (some exc.typeName)]
    else []
  (500, create_error_response path now 500 "INTERNAL_SERVER_ERROR" message details)

/-- `model_dump` of an `ErrorDetail`. -/
def dumpErrorDetail (d : ErrorDetail) : JsonValue :=
  .obj [("type", .str d.type), ("message", .str d.message),
        ("field", encOpt .str d.field), ("code", encOpt .str d.code)]

/-- `model_dump` of an `ErrorResponse`, as placed into the
`JSONResponse` content. -/
def dumpErrorResponse (r : ErrorResponse) : JsonValue :=
  .obj [("success", .bool r.success), ("error", .str r.error),
        ("message", .str r.message),
        ("details", .arr (r.details.map dumpErrorDetail)),
        ("status_code", .num (r.status_code : Rat)),
        ("timestamp", .str r.timestamp),
        ("path", encOpt .str r.path),
        ("request_id", encOpt .str r.request_id)]

/-! ## Chat endpoints (`api/chat.py`) and app-level dispatch (`main.py`) -/

/-- The provider collaborator's behavior for one request: the result of
`ai_chat_service.chat_completion` (a response or a raised exception)
and the event sequence of `ai_chat_service.chat_completion_stream`
(spec §6 collaborator contract). -/
structure ProviderBehavior where
  singleResult : Except PyExc ChatCompletionResponse
  streamEvents : List StreamEvent

/-- Outcome of a router handler: a `StreamingResponse`, a JSON-returning
endpoint result (serialized with status 200 by the framework), or a
raised exception left to the app-level handlers. -/
inductive HandlerResult where
  | streamingResp (frames : List String) (mediaType : String)
      (headers : List (String × String))
  | jsonResp (status : Nat) (body : ChatCompletionResponse)
  | raised (exc : HTTPExc)

/-- The headers both endpoints attach to a `StreamingResponse`
(`api/chat.py` lines 59–63 and 104–108). -/
def streamHeaders : List (String × String) :=
  [("Cache-Control", "no-cache"), ("Connection", "keep-alive"),
   ("Content-Type", "text/plain; charset=utf-8")]

/-- Python truthiness of the optional `stream` flag (`if request.stream:`). -/
def pyTruthyBool : Option Bool → Bool
  | none => false
  | some b => b

/-- The `POST /colposcopy` handler (`api/chat.py` lines 28–71): accepts
uploaded files (unused by the relay logic), streams via `generate` when
`request.stream` is truthy, otherwise calls `chat_completion` once and
returns its result; any exception raised in the body is re-raised as
`HTTPException(status_code=500, detail=str(e))`.  The second component
counts `chat_completion` invocations. -/
def colposcopy_chat_completions (files : List String)
    (req : ChatCompletionRequest) (beh : ProviderBehavior) :
    HandlerResult × Nat :=
  if pyTruthyBool req.stream then
    (.streamingResp (generate beh.streamEvents) "text/plain" streamHeaders, 0)
  else
    match beh.singleResult with
    | .ok resp => (.jsonResp 200 resp, 1)
    | .error e => (.raised ⟨500, strExc e, none, none, false⟩, 1)

/-- The `POST /completions` handler (`api/chat.py` lines 74–116):
identical body without the files parameter. -/
def completions_chat_completions (req : ChatCompletionRequest)
    (beh : ProviderBehavior) : HandlerResult × Nat :=
  if pyTruthyBool req.stream then
    (.streamingResp (generate beh.streamEvents) "text/plain" streamHeaders, 0)
  else
    match beh.singleResult with
    | .ok resp => (.jsonResp 200 resp, 1)
    | .error e => (.raised ⟨500, strExc e, none, none, false⟩, 1)

/-- Exception dispatch registered in `main.py` (lines 58–61), following
Starlette's most-specific-class handler lookup: an `HTTPException`
(including every `BusinessException` subclass) is routed to
`http_exception_handler`, any other exception to
`general_exception_handler`. -/
def appDispatch (environment : Option String) (now path : String) :
    PyExc → Nat × ErrorResponse
  | .httpExc e => http_exception_handler now path e
  | .genExc e => general_exception_handler environment now path e

/-- `model_dump` of a `ChatCompletionResponse` (the JSON body produced
for a non-streaming endpoint return). -/
def dumpChatCompletionResponse (r : ChatCompletionResponse) : JsonValue :=
  .obj [("id", .str r.id), ("object", .str r.object),
        ("created", encInt r.created), ("model", .str r.model),
        ("choices", .arr (r.choices.map .obj)),
        ("usage", encOpt (fun u => .obj (u.map fun p => (p.1, encInt p.2))) r.usage),
        ("agent_info", encOpt .obj r.agent_info),
        ("memory_info", encOpt .obj r.memory_info),
        ("tool_execution_info", encOpt .obj r.tool_execution_info)]

/-- The HTTP response the client observes: a JSON response or an SSE
stream. -/
inductive AppResponse where
  | json (status : Nat) (body : JsonValue)
  | stream (frames : List String) (mediaType : String)
      (headers : List (String × String))

/-- End-to-end behavior of `POST /completions` on a validated request:
run the handler; convert a raised exception through the registered
app-level exception handlers (`main.py` lines 58–61) into a JSON error
response. -/
def appChatCompletions (environment : Option String) (now path : String)
    (req : ChatCompletionRequest) (beh : ProviderBehavior) : AppResponse :=
  match completions_chat_completions req beh with
  | (.streamingResp fr mt hd, _) => .stream fr mt hd
  | (.jsonResp s body, _) => .json s (dumpChatCompletionResponse body)
  | (.raised e, _) =>
    let p := appDispatch environment now path (.httpExc e)
    .json p.1 (dumpErrorResponse p.2)

/-- End-to-end behavior of `POST /colposcopy` on a validated request,
analogously. -/
def appChatColposcopy (environment : Option String) (now path : String)
    (files : List String) (req : ChatCompletionRequest)
    (beh : ProviderBehavior) : AppResponse :=
  match colposcopy_chat_completions files req beh with
  | (.streamingResp fr mt hd, _) => .stream fr mt hd
  | (.jsonResp s body, _) => .json s (dumpChatCompletionResponse body)
  | (.raised e, _) =>
    let p := appDispatch environment now path (.httpExc e)
    .json p.1 (dumpErrorResponse p.2)

/-- Pydantic's missing-required-field errors for a
`ChatCompletionRequest` request body, modelled from the schema's field
declarations (`model` and `messages` are the only required fields,
`schemas/chat.py` lines 137–138) and pydantic's standard reporting: one
error with location `("body", <field>)` and type `"missing"` per absent
required field. -/
def requestMissingFieldErrors (o : Jobj) : List RawError :=
  (if (jlookup o "model").isNone then
    [RawError.mk [.key "body", .key "model"] "Field required" "missing"]
  else [])
  ++ (if (jlookup o "messages").isNone then
    [RawError.mk [.key "body", .key "messages"] "Field required" "missing"]
  else [])

/-- The literal-membership invariants an `AgentConfig` must satisfy to
have been produced (or be reproducible) by validation. -/
def ValidAgentConfig (a : AgentConfig) : Prop :=
  a.agent_type ∈ agentTypeLits ∧
  ∀ s, a.reasoning_mode = some s → s ∈ reasoningLits

/-- The literal-membership invariants a `MemoryConfig` must satisfy. -/
def ValidMemoryConfig (m : MemoryConfig) : Prop :=
  m.memory_type ∈ memoryTypeLits ∧
  (∀ s, m.retention_policy = some s → s ∈ retentionLits) ∧
  (∀ s, m.retrieval_strategy = some s → s ∈ retrievalLits)

/-- The invariants a `ChatCompletionRequest` must satisfy: every literal
field of every nested model lies in its enumeration. -/
def ValidChatCompletionRequest (r : ChatCompletionRequest) : Prop :=
  (∀ m ∈ r.messages, m.role ∈ roleLits) ∧
  (∀ ts, r.tools = some ts → ∀ t ∈ ts, t.type = "function") ∧
  (∀ a, r.agent_config = some a → ValidAgentConfig a) ∧
  (∀ mc, r.memory_config = some mc → ValidMemoryConfig mc)

/-- The fields of an envelope other than `message` and `details`, used
to state that the environment mode changes nothing else. -/
def envelopeSansMessageDetails (r : ErrorResponse) :
    Bool × String × Nat × String × Option String × Option String :=
  (r.success, r.error, r.status_code, r.timestamp, r.path, r.request_id)

/-! ## Example values used by witnesses -/

/-- A plain user message. -/
def exampleMessage : ChatMessage :=
  ⟨"user", some "请分析GIST的治疗方案", none, none, none, none⟩

/-- A request with `stream=true` and defaults elsewhere. -/
def exampleRequestStream : ChatCompletionRequest :=
  ⟨"gpt-4", [exampleMessage], some 1000, some (7 / 10), some 1, some 1,
   some true, none, some 0, some 0, none, none, none, none, none, none,
   none, none, some "session_123", none, some false, none⟩

/-- A request with `stream` left at its default `false`. -/
def exampleRequestNoStream : ChatCompletionRequest :=
  ⟨"gpt-4", [exampleMessage], some 1000, some (7 / 10), some 1, some 1,
   some false, none, some 0, some 0, none, none, none, none, none, none,
   none, none, some "session_123", none, some false, none⟩

/-- An upstream event sequence: a non-empty message, an empty-payload
message, `done`, and a trailing message after `done`. -/
def exampleEvents : List StreamEvent :=
  [⟨"message", some (.obj [("delta", .str "你好")])⟩,
   ⟨"message", some (.obj [])⟩,
   ⟨"done", none⟩,
   ⟨"message", some (.str "late")⟩]

/-- A provider response value. -/
def exampleResponse : ChatCompletionResponse :=
  ⟨"chatcmpl-123", "chat.completion", 1677652288, "gpt-4",
   [[("index", .num 0)]], some [("total_tokens", 110)], none, none, none⟩

/-- The example request body of the schema's `json_schema_extra`
(`schemas/chat.py` lines 166–176): `stream` and the other optional
fields are omitted.  Parsing it yields `exampleRequestNoStream`. -/
def exampleRequestJson : Jobj :=
  [("model", .str "gpt-4"),
   ("messages", .arr [.obj [("role", .str "user"),
     ("content", .str "请分析GIST的治疗方案")]]),
   ("max_tokens", .num 1000),
   ("temperature", .num (7 / 10)),
   ("session_id", .str "session_123")]

/-! ## Helper lemmas -/

theorem generate_spec (evs : List StreamEvent) (h : hasDone evs = true) :
    generate evs =
      (evs.takeWhile (fun e => e.type ≠ "done")).filterMap msgFrame
        ++ ["data: [DONE]\n\n"] := by
  induction evs with
  | nil => simp [hasDone] at h
  | cons e rest ih =>
    by_cases hd : e.type = "done"
    · simp [generate, hd, List.takeWhile_cons, msgFrame]
    · have hrest : hasDone rest = true := by
        simpa [hasDone, hd] using h
      by_cases hm : e.type = "message" ∧ pyTruthyOpt e.data
      · simp [generate, hm, hd, List.takeWhile_cons, List.filterMap_cons, msgFrame,
          ih hrest]
      · simp [generate, hm, hd, List.takeWhile_cons, List.filterMap_cons, msgFrame,
          ih hrest]

theorem decLitOf_mem {lits : List String} {v : JsonValue} {s : String}
    (h : decLitOf lits v = some s) : s ∈ lits := by
  cases v with
  | str s' =>
    simp only [decLitOf] at h
    split at h
    · cases h; assumption
    · cases h
  | null => cases h
  | bool b => cases h
  | num q => cases h
  | arr xs => cases h
  | obj kvs => cases h

theorem decReq_litOf_mem {lits : List String} {x : Option JsonValue}
    {s : String} (h : decReq (decLitOf lits) x = some s) : s ∈ lits := by
  cases x with
  | none => cases h
  | some v => exact decLitOf_mem h

theorem parseChatMessage_role_mem {v : JsonValue} {m : ChatMessage}
    (h : parseChatMessage v = some m) : m.role ∈ roleLits := by
  cases v <;> simp only [parseChatMessage] at h <;> try cases h
  next o =>
    simp only [bind, Option.bind_eq_some, pure, Option.some.injEq] at h
    obtain ⟨role, h1, content, h2, nm, h3, fc, h4, tc, h5, tid, h6, hm⟩ := h
    subst hm
    exact decReq_litOf_mem h1

theorem decOpt_enc_str (d : Option String) (v : Option String) :
    decOpt decStr d (some (encOpt .str v)) = some v := by
  cases v <;> rfl

theorem decOpt_enc_bool (d : Option Bool) (v : Option Bool) :
    decOpt decBool d (some (encOpt .bool v)) = some v := by
  cases v <;> rfl

theorem decOpt_enc_rat (d : Option Rat) (v : Option Rat) :
    decOpt decRat d (some (encOpt .num v)) = some v := by
  cases v <;> rfl

theorem decInt_encInt (i : Int) : decInt (encInt i) = some i := by
  simp [decInt, encInt, Rat.den_intCast, Rat.num_intCast]

theorem decOpt_enc_int (d : Option Int) (v : Option Int) :
    decOpt decInt d (some (encOpt encInt v)) = some v := by
  cases v with
  | none => rfl
  | some i => simp [decOpt, encOpt, encInt, decInt, Rat.den_intCast,
      Rat.num_intCast]

theorem decOpt_enc_obj (d : Option Jobj) (v : Option Jobj) :
    decOpt decObj d (some (encOpt .obj v)) = some v := by
  cases v <;> rfl

theorem decStrEach_map (l : List String) : decStrEach (l.map .str) = some l := by
  induction l with
  | nil => rfl
  | cons s rest ih => simp [decStrEach, ih]

theorem decObjEach_map (l : List Jobj) : decObjEach (l.map .obj) = some l := by
  induction l with
  | nil => rfl
  | cons o rest ih => simp [decObjEach, ih]

theorem decOpt_enc_strList (d : Option (List String)) (v : Option (List String)) :
    decOpt decStrList d (some (encOpt encStrList v)) = some v := by
  cases v with
  | none => rfl
  | some l => simp [decOpt, encOpt, encStrList, decStrList, decStrEach_map]

theorem decOpt_enc_objList (d : Option (List Jobj)) (v : Option (List Jobj)) :
    decOpt decObjList d
      (some (encOpt (fun l => .arr (l.map .obj)) v)) = some v := by
  cases v with
  | none => rfl
  | some l => simp [decOpt, encOpt, decObjList, decObjEach_map]

theorem decOpt_enc_stop (d : Option (String ⊕ List String))
    (v : Option (String ⊕ List String)) :
    decOpt decStrOrStrList d (some (encOpt encStrOrStrList v)) = some v := by
  cases v with
  | none => rfl
  | some sv =>
    cases sv with
    | inl s => rfl
    | inr l =>
      simp [decOpt, encOpt, encStrOrStrList, decStrOrStrList, decStrEach_map]

theorem decOpt_enc_strOrObj (d : Option (String ⊕ Jobj))
    (v : Option (String ⊕ Jobj)) :
    decOpt decStrOrObj d (some (encOpt encStrOrObj v)) = some v := by
  cases v with
  | none => rfl
  | some sv => cases sv <;> rfl

theorem decRatPairs_map (ps : List (String × Rat)) :
    decRatPairs (ps.map fun p => (p.1, .num p.2)) = some ps := by
  induction ps with
  | nil => rfl
  | cons p rest ih =>
    obtain ⟨k, q⟩ := p
    simp [decRatPairs, ih]

theorem decOpt_enc_logitBias (d : Option (List (String × Rat)))
    (v : Option (List (String × Rat))) :
    decOpt decLogitBias d (some (encOpt encLogitBias v)) = some v := by
  cases v with
  | none => rfl
  | some ps => simp [decOpt, encOpt, encLogitBias, decLogitBias, decRatPairs_map]

theorem decOpt_enc_lit (lits : List String) (d : Option String)
    (v : Option String) (hv : ∀ s, v = some s → s ∈ lits) :
    decOpt (decLitOf lits) d (some (encOpt .str v)) = some v := by
  cases v with
  | none => rfl
  | some s => simp [decOpt, encOpt, decLitOf, hv s rfl]

theorem decStrList_encStrList (l : List String) :
    decStrList (encStrList l) = some l := by
  simp [decStrList, encStrList, decStrEach_map]

theorem parseChatMessage_dump (m : ChatMessage) (h : m.role ∈ roleLits) :
    parseChatMessage (dumpChatMessage m) = some m := by
  obtain ⟨role, content, nm, fc, tc, tid⟩ := m
  simp only [ChatMessage.role] at h
  simp [parseChatMessage, dumpChatMessage, jlookup, decReq, decLitOf, h,
    decOpt_enc_str, decOpt_enc_obj, decOpt_enc_objList, bind, pure]

theorem parseMessages_dump (ms : List ChatMessage)
    (h : ∀ m ∈ ms, m.role ∈ roleLits) :
    parseMessages (ms.map dumpChatMessage) = some ms := by
  induction ms with
  | nil => rfl
  | cons m rest ih =>
    simp [parseMessages, parseChatMessage_dump m (h m (by simp)),
      ih (fun x hx => h x (by simp [hx])), bind, pure]

theorem parseTool_dump (t : Tool) (h : t.type = "function") :
    parseTool (dumpTool t) = some t := by
  obtain ⟨ty, fn⟩ := t
  simp only [Tool.type] at h
  subst h
  simp [parseTool, dumpTool, jlookup, decD, decLitOf, decReq, decObj,
    bind, pure]

theorem parseTools_dump (ts : List Tool)
    (h : ∀ t ∈ ts, t.type = "function") :
    parseTools (ts.map dumpTool) = some ts := by
  induction ts with
  | nil => rfl
  | cons t rest ih =>
    simp [parseTools, parseTool_dump t (h t (by simp)),
      ih (fun x hx => h x (by simp [hx])), bind, pure]

theorem parseAgentConfig_dump (a : AgentConfig) (hv : ValidAgentConfig a) :
    parseAgentConfig (dumpAgentConfig a) = some a := by
  obtain ⟨h1, h2⟩ := hv
  obtain ⟨at_, sp, pe, gu, te, mi, rm⟩ := a
  simp only [AgentConfig.agent_type] at h1
  simp only [AgentConfig.reasoning_mode] at h2
  simp [parseAgentConfig, dumpAgentConfig, jlookup, decReq, decLitOf, h1,
    decOpt_enc_str, decOpt_enc_strList, decOpt_enc_int,
    decOpt_enc_lit reasoningLits _ rm h2, bind, pure]

theorem parseMemoryConfig_dump (m : MemoryConfig) (hv : ValidMemoryConfig m) :
    parseMemoryConfig (dumpMemoryConfig m) = some m := by
  obtain ⟨h1, h2, h3⟩ := hv
  obtain ⟨mt, rp, mm, ce, rs⟩ := m
  simp only [MemoryConfig.memory_type] at h1
  simp only [MemoryConfig.retention_policy] at h2
  simp only [MemoryConfig.retrieval_strategy] at h3
  simp [parseMemoryConfig, dumpMemoryConfig, jlookup, decReq, decLitOf, h1,
    decOpt_enc_int, decOpt_enc_bool,
    decOpt_enc_lit retentionLits _ rp h2,
    decOpt_enc_lit retrievalLits _ rs h3, bind, pure]

theorem parseMCPConfig_dump (m : MCPConfig) :
    parseMCPConfig (dumpMCPConfig m) = some m := by
  obtain ⟨cw, cc, rt, cs, dc⟩ := m
  simp [parseMCPConfig, dumpMCPConfig, jlookup, decD, decBool, decRat,
    decInt_encInt, decStrList_encStrList, bind, pure]

theorem decOpt_some_cases {dec : JsonValue → Option α} {d : Option α}
    {jv : JsonValue} {v : Option α}
    (h : decOpt dec d (some jv) = some v) :
    v = none ∨ ∃ a, dec jv = some a ∧ v = some a := by
  cases jv with
  | null =>
    simp only [decOpt] at h
    cases h
    exact .inl rfl
  | bool b =>
    simp only [decOpt, Option.map_eq_some'] at h
    obtain ⟨a, ha, hv⟩ := h
    exact .inr ⟨a, ha, hv.symm⟩
  | num q =>
    simp only [decOpt, Option.map_eq_some'] at h
    obtain ⟨a, ha, hv⟩ := h
    exact .inr ⟨a, ha, hv.symm⟩
  | str s =>
    simp only [decOpt, Option.map_eq_some'] at h
    obtain ⟨a, ha, hv⟩ := h
    exact .inr ⟨a, ha, hv.symm⟩
  | arr xs =>
    simp only [decOpt, Option.map_eq_some'] at h
    obtain ⟨a, ha, hv⟩ := h
    exact .inr ⟨a, ha, hv.symm⟩
  | obj kvs =>
    simp only [decOpt, Option.map_eq_some'] at h
    obtain ⟨a, ha, hv⟩ := h
    exact .inr ⟨a, ha, hv.symm⟩

theorem decOpt_valid {dec : JsonValue → Option α} {d : Option α}
    {x : Option JsonValue} {v : Option α} (P : α → Prop)
    (hdec : ∀ jv a, dec jv = some a → P a)
    (hd : ∀ a, d = some a → P a)
    (h : decOpt dec d x = some v) :
    ∀ a, v = some a → P a := by
  intro a hv
  subst hv
  cases x with
  | none =>
    simp only [decOpt, Option.some.injEq] at h
    exact hd a h
  | some jv =>
    rcases decOpt_some_cases h with hnone | ⟨a', ha', hv'⟩
    · cases hnone
    · cases hv'
      exact hdec _ _ ha'

theorem decD_litOf_mem {lits : List String} {dflt : String}
    {x : Option JsonValue} {s : String} (hdflt : dflt ∈ lits)
    (h : decD (decLitOf lits) dflt x = some s) : s ∈ lits := by
  cases x with
  | none =>
    simp only [decD, Option.some.injEq] at h
    subst h
    exact hdflt
  | some jv => exact decLitOf_mem h

theorem parseTool_type {v : JsonValue} {t : Tool}
    (h : parseTool v = some t) : t.type = "function" := by
  cases v <;> simp only [parseTool] at h <;> try cases h
  next o =>
    simp only [bind, Option.bind_eq_some, pure, Option.some.injEq] at h
    obtain ⟨ty, h1, fn, h2, ht⟩ := h
    subst ht
    have := @decD_litOf_mem ["function"] _ _ _ (by simp) h1
    simpa using this

theorem parseTools_types {xs : List JsonValue} {ts : List Tool}
    (h : parseTools xs = some ts) : ∀ t ∈ ts, t.type = "function" := by
  induction xs generalizing ts with
  | nil =>
    cases h
    intro t ht
    cases ht
  | cons x rest ih =>
    simp only [parseTools, bind, Option.bind_eq_some, pure,
      Option.some.injEq] at h
    obtain ⟨t, ht, ts', hts', hcons⟩ := h
    subst hcons
    intro u hu
    rcases List.mem_cons.1 hu with hu | hu
    · subst hu
      exact parseTool_type ht
    · exact ih hts' u hu

theorem parseMessages_roles {xs : List JsonValue} {ms : List ChatMessage}
    (h : parseMessages xs = some ms) : ∀ m ∈ ms, m.role ∈ roleLits := by
  induction xs generalizing ms with
  | nil =>
    cases h
    intro m hm
    cases hm
  | cons x rest ih =>
    simp only [parseMessages, bind, Option.bind_eq_some, pure,
      Option.some.injEq] at h
    obtain ⟨m, hm, ms', hms', hcons⟩ := h
    subst hcons
    intro u hu
    rcases List.mem_cons.1 hu with hu | hu
    · subst hu
      exact parseChatMessage_role_mem hm
    · exact ih hms' u hu

theorem parseAgentConfig_valid {v : JsonValue} {a : AgentConfig}
    (h : parseAgentConfig v = some a) : ValidAgentConfig a := by
  cases v <;> simp only [parseAgentConfig] at h <;> try cases h
  next o =>
    simp only [bind, Option.bind_eq_some, pure, Option.some.injEq] at h
    obtain ⟨at_, h1, sp, h2, pe, h3, gu, h4, te, h5, mi, h6, rm, h7, ha⟩ := h
    subst ha
    refine ⟨decReq_litOf_mem h1, ?_⟩
    exact decOpt_valid (· ∈ reasoningLits) (fun _ _ hj => decLitOf_mem hj)
      (fun s hs => by cases hs; simp [reasoningLits]) h7

theorem parseMemoryConfig_valid {v : JsonValue} {m : MemoryConfig}
    (h : parseMemoryConfig v = some m) : ValidMemoryConfig m := by
  cases v <;> simp only [parseMemoryConfig] at h <;> try cases h
  next o =>
    simp only [bind, Option.bind_eq_some, pure, Option.some.injEq] at h
    obtain ⟨mt, h1, rp, h2, mm, h3, ce, h4, rs, h5, hm⟩ := h
    subst hm
    refine ⟨decReq_litOf_mem h1, ?_, ?_⟩
    · exact decOpt_valid (· ∈ retentionLits) (fun _ _ hj => decLitOf_mem hj)
        (fun s hs => by cases hs; simp [retentionLits]) h2
    · exact decOpt_valid (· ∈ retrievalLits) (fun _ _ hj => decLitOf_mem hj)
        (fun s hs => by cases hs; simp [retrievalLits]) h5

theorem parseRequestCore_inv {o : Jobj} {a : RequestCore}
    (h : parseRequestCore o = some a) :
    decReq decStr (jlookup o "model") = some a.model ∧
    (∃ xs, jlookup o "messages" = some (.arr xs) ∧
      parseMessages xs = some a.messages) ∧
    decOpt decInt (some 1000) (jlookup o "max_tokens") = some a.max_tokens ∧
    decOpt decRat (some (7 / 10)) (jlookup o "temperature") =
      some a.temperature ∧
    decOpt decRat (some 1) (jlookup o "top_p") = some a.top_p ∧
    decOpt decInt (some 1) (jlookup o "n") = some a.n ∧
    decOpt decBool (some false) (jlookup o "stream") = some a.stream ∧
    decOpt decRat (some 0) (jlookup o "presence_penalty") =
      some a.presence_penalty ∧
    decOpt decRat (some 0) (jlookup o "frequency_penalty") =
      some a.frequency_penalty := by
  simp only [parseRequestCore, bind, Option.bind_eq_some, pure,
    Option.some.injEq] at h
  obtain ⟨model, h1, messages, h2, mt, h3, tmp, h4, tp, h5, nn, h6, st, h7,
    stp, h8, pp, h9, fp, h10, lb, h11, us, h12, ha⟩ := h
  subst ha
  refine ⟨h1, ?_, h3, h4, h5, h6, h7, h9, h10⟩
  cases hx : jlookup o "messages" with
  | none => rw [hx] at h2; cases h2
  | some v =>
    rw [hx] at h2
    cases v with
    | arr xs => exact ⟨xs, rfl, h2⟩
    | null => cases h2
    | bool b => cases h2
    | num q => cases h2
    | str s => cases h2
    | obj kvs => cases h2

theorem parseRequestExtensions_inv {o : Jobj} {b : RequestExtensions}
    (h : parseRequestExtensions o = some b) :
    decOpt decBool (some false) (jlookup o "include_patient_context") =
      some b.include_patient_context ∧
    (∀ ts, b.tools = some ts → ∀ t ∈ ts, t.type = "function") ∧
    (∀ a, b.agent_config = some a → ValidAgentConfig a) ∧
    (∀ mc, b.memory_config = some mc → ValidMemoryConfig mc) := by
  simp only [parseRequestExtensions, bind, Option.bind_eq_some, pure,
    Option.some.injEq] at h
  obtain ⟨ts, h1, tc, h2, ac, h3, mc, h4, mcp, h5, ci, h6, si, h7, pi, h8,
    ipc, h9, md, h10, hb⟩ := h
  subst hb
  refine ⟨h9, ?_, ?_, ?_⟩
  · intro tl htl
    refine decOpt_valid (fun tl => ∀ t ∈ tl, t.type = "function")
      (fun jv a hj => ?_) (fun a ha => by cases ha) h1 tl htl
    cases jv <;> simp only at hj <;> try cases hj
    next xs => exact parseTools_types hj
  · exact decOpt_valid ValidAgentConfig
      (fun _ _ hj => parseAgentConfig_valid hj) (fun a ha => by cases ha) h3
  · exact decOpt_valid ValidMemoryConfig
      (fun _ _ hj => parseMemoryConfig_valid hj) (fun a ha => by cases ha) h4

theorem parseRequestCore_dump (r : ChatCompletionRequest)
    (hmsg : ∀ m ∈ r.messages, m.role ∈ roleLits) :
    parseRequestCore (dumpChatCompletionRequest r) =
      some ⟨r.model, r.messages, r.max_tokens, r.temperature, r.top_p, r.n,
            r.stream, r.stop, r.presence_penalty, r.frequency_penalty,
            r.logit_bias, r.user⟩ := by
  simp [parseRequestCore, dumpChatCompletionRequest, jlookup, decReq, decStr,
    parseMessages_dump r.messages hmsg, decOpt_enc_int, decOpt_enc_rat,
    decOpt_enc_bool, decOpt_enc_stop, decOpt_enc_logitBias, decOpt_enc_str,
    bind, pure]

theorem parseRequestExtensions_dump (r : ChatCompletionRequest)
    (htools : ∀ ts, r.tools = some ts → ∀ t ∈ ts, t.type = "function")
    (hagent : ∀ a, r.agent_config = some a → ValidAgentConfig a)
    (hmem : ∀ mc, r.memory_config = some mc → ValidMemoryConfig mc) :
    parseRequestExtensions (dumpChatCompletionRequest r) =
      some ⟨r.tools, r.tool_choice, r.agent_config, r.memory_config,
            r.mcp_config, r.context_id, r.session_id, r.patient_id,
            r.include_patient_context, r.metadata⟩ := by
  have hts : decOpt (fun v => match v with
      | .arr xs => parseTools xs
      | _ => none) none
      (some (encOpt (fun ts => .arr (ts.map dumpTool)) r.tools)) =
      some r.tools := by
    cases hcase : r.tools with
    | none => rfl
    | some l => simp [decOpt, encOpt, parseTools_dump l (htools l hcase)]
  have hac : decOpt parseAgentConfig none
      (some (encOpt dumpAgentConfig r.agent_config)) = some r.agent_config := by
    cases hcase : r.agent_config with
    | none => rfl
    | some a =>
      show (parseAgentConfig (dumpAgentConfig a)).map some = some (some a)
      rw [parseAgentConfig_dump a (hagent a hcase)]
      rfl
  have hmc : decOpt parseMemoryConfig none
      (some (encOpt dumpMemoryConfig r.memory_config)) =
      some r.memory_config := by
    cases hcase : r.memory_config with
    | none => rfl
    | some m =>
      show (parseMemoryConfig (dumpMemoryConfig m)).map some = some (some m)
      rw [parseMemoryConfig_dump m (hmem m hcase)]
      rfl
  have hmcp : decOpt parseMCPConfig none
      (some (encOpt dumpMCPConfig r.mcp_config)) = some r.mcp_config := by
    cases r.mcp_config with
    | none => rfl
    | some m =>
      show (parseMCPConfig (dumpMCPConfig m)).map some = some (some m)
      rw [parseMCPConfig_dump m]
      rfl
  simp [parseRequestExtensions, dumpChatCompletionRequest, jlookup, hts, hac,
    hmc, hmcp, decOpt_enc_strOrObj, decOpt_enc_str, decOpt_enc_int,
    decOpt_enc_bool, decOpt_enc_obj, bind, pure]

theorem parse_dump_request (r : ChatCompletionRequest)
    (hv : ValidChatCompletionRequest r) :
    parseChatCompletionRequest (dumpChatCompletionRequest r) = some r := by
  obtain ⟨h1, h2, h3, h4⟩ := hv
  simp [parseChatCompletionRequest, parseRequestCore_dump r h1,
    parseRequestExtensions_dump r h2 h3 h4, bind, pure]

/-! ## Claims -/

/-- C1: for every request with `stream=true` handled by either chat
endpoint, the emitted SSE frame sequence is, in order, one
`data: <json>\n\n` frame per `"message"` event with a non-empty payload
among the events strictly before the first `"done"` event, followed by
exactly one terminating `data: [DONE]\n\n` frame; empty/absent payloads
produce no frame and nothing is emitted after `[DONE]` even if the
upstream sequence is not exhausted. -/
theorem stream_frames (files : List String) (req : ChatCompletionRequest)
    (beh : ProviderBehavior) (hs : pyTruthyBool req.stream = true)
    (hd : hasDone beh.streamEvents = true) :
    colposcopy_chat_completions files req beh =
      (.streamingResp
        ((beh.streamEvents.takeWhile (fun e => e.type ≠ "done")).filterMap msgFrame
          ++ ["data: [DONE]\n\n"]) "text/plain" streamHeaders, 0) ∧
    completions_chat_completions req beh =
      (.streamingResp
        ((beh.streamEvents.takeWhile (fun e => e.type ≠ "done")).filterMap msgFrame
          ++ ["data: [DONE]\n\n"]) "text/plain" streamHeaders, 0) := by
  rw [colposcopy_chat_completions, completions_chat_completions, hs,
    generate_spec _ hd]
  simp

theorem stream_frames_witness :
    pyTruthyBool exampleRequestStream.stream = true ∧
    hasDone exampleEvents = true ∧
    completions_chat_completions exampleRequestStream
        ⟨.ok exampleResponse, exampleEvents⟩ =
      (.streamingResp
        ((exampleEvents.takeWhile (fun e => e.type ≠ "done")).filterMap msgFrame
          ++ ["data: [DONE]\n\n"]) "text/plain" streamHeaders, 0) :=
  ⟨rfl, rfl,
   (stream_frames [] exampleRequestStream ⟨.ok exampleResponse, exampleEvents⟩
     rfl rfl).2⟩

/-- C2: for every request with `stream=false`, both chat endpoints call
the provider's single-shot `chat_completion` exactly once and return its
result unmodified with status 200. -/
theorem nonstream_single_call (files : List String)
    (req : ChatCompletionRequest) (beh : ProviderBehavior)
    (resp : ChatCompletionResponse) (hs : pyTruthyBool req.stream = false)
    (hr : beh.singleResult = .ok resp) :
    colposcopy_chat_completions files req beh = (.jsonResp 200 resp, 1) ∧
    completions_chat_completions req beh = (.jsonResp 200 resp, 1) := by
  rw [colposcopy_chat_completions, completions_chat_completions, hs, hr]
  simp

theorem nonstream_single_call_witness :
    pyTruthyBool exampleRequestNoStream.stream = false ∧
    completions_chat_completions exampleRequestNoStream
        ⟨.ok exampleResponse, []⟩ = (.jsonResp 200 exampleResponse, 1) :=
  ⟨rfl,
   (nonstream_single_call [] exampleRequestNoStream ⟨.ok exampleResponse, []⟩
     exampleResponse rfl rfl).2⟩

/-- C8: for every validated request and provider behavior, the
`/colposcopy` handler and the `/completions` handler produce identical
results (status, headers, body, SSE frames, and provider call counts);
the uploaded files accepted by `/colposcopy` have no effect. -/
theorem endpoints_equivalent (files : List String)
    (req : ChatCompletionRequest) (beh : ProviderBehavior) :
    colposcopy_chat_completions files req beh =
      completions_chat_completions req beh := rfl

/-- C5 counterexample: a `BusinessException` constructed with
`error_code="NOT_FOUND"` and `field="patient_id"` but with the
constructor's default `status_code` (400, `core/exceptions.py` line 39)
yields an envelope with `status_code=400`, not 404 as the claim
states. -/
theorem business_notfound_cex :
    (http_exception_handler "2024-01-01T00:00:00" "/api/v1/chat/completions"
      (BusinessException 400 "业务处理异常" (some "NOT_FOUND")
        (some "patient_id"))).2.status_code = 400 ∧
    (400 : Nat) ≠ 404 :=
  ⟨rfl, by decide⟩

/-- C5 amended: for every `BusinessException` constructed with
`status_code=404`, `error_code="NOT_FOUND"` and `field="patient_id"`,
the envelope produced by `http_exception_handler` has `status_code=404`,
`error="NOT_FOUND"`, and exactly one detail entry whose field is
`"patient_id"`. -/
theorem business_notfound_envelope (detail now path : String) :
    http_exception_handler now path
        (BusinessException 404 detail (some "NOT_FOUND") (some "patient_id")) =
      (404, create_error_response path now 404 "NOT_FOUND" detail
        [ErrorDetail.mk "business_error" detail (some "patient_id")
          (some "NOT_FOUND")]) := rfl

/-- C6: every unhandled exception reaching `general_exception_handler`
yields status 500 with `error="INTERNAL_SERVER_ERROR"`; in development
mode the message is `"<type>: <str>"` and the details hold one
`system_error` entry, otherwise the message is the fixed generic text
and the details are empty; and this message/details difference is the
only difference between environment modes. -/
theorem general_handler_modes (environment : Option String) (exc : GenExc)
    (now path : String) :
    (general_exception_handler environment now path exc).1 = 500 ∧
    (general_exception_handler environment now path exc).2.status_code = 500 ∧
    (general_exception_handler environment now path exc).2.error =
      "INTERNAL_SERVER_ERROR" ∧
    (isDevelopment environment = true →
      (general_exception_handler environment now path exc).2.message =
          exc.typeName ++ ": " ++ exc.msg ∧
      (general_exception_handler environment now path exc).2.details =
          [ErrorDetail.mk "system_error" exc.msg none (some exc.typeName)]) ∧
    (isDevelopment environment = false →
      (general_exception_handler environment now path exc).2.message =
          "服务器内部错误，请稍后重试" ∧
      (general_exception_handler environment now path exc).2.details = []) ∧
    (∀ env2 : Option String,
      envelopeSansMessageDetails
          (general_exception_handler environment now path exc).2 =
        envelopeSansMessageDetails
          (general_exception_handler env2 now path exc).2 ∧
      (general_exception_handler environment now path exc).1 =
        (general_exception_handler env2 now path exc).1) := by
  refine ⟨rfl, rfl, rfl, fun hdev => ?_, fun hprod => ?_, fun env2 => ?_⟩
  · simp [general_exception_handler, hdev, create_error_response]
  · simp [general_exception_handler, hprod, create_error_response]
  · constructor
    · cases hdev : isDevelopment environment <;>
        cases hdev2 : isDevelopment env2 <;>
          simp [general_exception_handler, hdev, hdev2,
            create_error_response, envelopeSansMessageDetails]
    · rfl

theorem general_handler_modes_witness :
    isDevelopment (some "development") = true ∧
    isDevelopment (some "production") = false ∧
    (general_exception_handler (some "development") "T" "/p"
        ⟨"ValueError", "boom"⟩).2.message = "ValueError: boom" ∧
    (general_exception_handler (some "production") "T" "/p"
        ⟨"ValueError", "boom"⟩).2.details = [] :=
  ⟨rfl, rfl,
   ((general_handler_modes (some "development") ⟨"ValueError", "boom"⟩
       "T" "/p").2.2.2.1 rfl).1,
   ((general_handler_modes (some "production") ⟨"ValueError", "boom"⟩
       "T" "/p").2.2.2.2.1 rfl).2⟩

/-- C4: `validation_exception_handler` returns 422 with
`error="VALIDATION_ERROR"` and one `ErrorDetail` per reported error,
whose field is the location tuple dot-joined after dropping its leading
root segment; and a body missing the required `messages` field produces
exactly one error, whose resulting detail has field `"messages"`. -/
theorem validation_envelope :
    (∀ (now path : String) (errors : List RawError),
      (validation_exception_handler now path errors).1 = 422 ∧
      (validation_exception_handler now path errors).2.status_code = 422 ∧
      (validation_exception_handler now path errors).2.error =
        "VALIDATION_ERROR" ∧
      (validation_exception_handler now path errors).2.details =
        errors.map (fun e =>
          ErrorDetail.mk "validation_error" e.msg (field_name e.loc)
            (some e.type)) ∧
      (validation_exception_handler now path errors).2.details.length =
        errors.length) ∧
    requestMissingFieldErrors [("model", .str "gpt-4")] =
      [RawError.mk [.key "body", .key "messages"] "Field required" "missing"] ∧
    (validation_exception_handler "2024-01-01T00:00:00" "/api/v1/chat/completions"
        (requestMissingFieldErrors [("model", .str "gpt-4")])).2.details =
      [ErrorDetail.mk "validation_error" "Field required" (some "messages")
        (some "missing")] := by
  refine ⟨fun now path errors => ⟨rfl, rfl, rfl, rfl, ?_⟩, rfl, rfl⟩
  simp [validation_exception_handler, create_error_response]

/-- C3 counterexample: an uncaught `ValueError` in the endpoint body is
re-raised as `HTTPException(500, str(e))`, which the `HTTPException`
handler registered in `main.py` (line 59) then wraps into the structured
`ErrorResponse` envelope; the client response is the envelope, not the
bare `{"detail": str(e)}` body the claim states. -/
theorem chat_error_envelope_cex :
    appChatCompletions none "2024-01-01T00:00:00" "/api/v1/chat/completions"
        exampleRequestNoStream
        ⟨.error (.genExc ⟨"ValueError", "boom"⟩), []⟩ =
      .json 500 (dumpErrorResponse
        (create_error_response "/api/v1/chat/completions" "2024-01-01T00:00:00"
          500 "INTERNAL_SERVER_ERROR" "boom" [])) ∧
    AppResponse.json 500 (dumpErrorResponse
        (create_error_response "/api/v1/chat/completions" "2024-01-01T00:00:00"
          500 "INTERNAL_SERVER_ERROR" "boom" [])) ≠
      .json 500 (.obj [("detail", .str "boom")]) := by
  refine ⟨rfl, fun h => ?_⟩
  simp [dumpErrorResponse, create_error_response] at h

/-- C3 amended: for every uncaught exception raised inside the body of
either chat endpoint before a streaming response begins, the handler
re-raises `HTTPException(500, str(e))` and the globally registered
`http_exception_handler` converts it into the structured `ErrorResponse`
envelope with status 500, `error="INTERNAL_SERVER_ERROR"` and message
`str(e)`; the local re-raise changes the status but does not pre-empt
the global envelope. -/
theorem chat_error_envelope (environment : Option String) (now path : String)
    (files : List String) (req : ChatCompletionRequest)
    (beh : ProviderBehavior) (e : PyExc)
    (hs : pyTruthyBool req.stream = false) (hr : beh.singleResult = .error e) :
    appChatCompletions environment now path req beh =
      .json 500 (dumpErrorResponse (create_error_response path now 500
        "INTERNAL_SERVER_ERROR" (strExc e) [])) ∧
    appChatColposcopy environment now path files req beh =
      .json 500 (dumpErrorResponse (create_error_response path now 500
        "INTERNAL_SERVER_ERROR" (strExc e) [])) := by
  rw [appChatCompletions, appChatColposcopy, completions_chat_completions,
    colposcopy_chat_completions, hs, hr]
  simp [appDispatch, http_exception_handler, errorTypeMap]

theorem chat_error_envelope_witness :
    pyTruthyBool exampleRequestNoStream.stream = false ∧
    appChatCompletions none "2024-01-01T00:00:00" "/api/v1/chat/completions"
        exampleRequestNoStream
        ⟨.error (.genExc ⟨"RuntimeError", "upstream failed"⟩), []⟩ =
      .json 500 (dumpErrorResponse
        (create_error_response "/api/v1/chat/completions" "2024-01-01T00:00:00"
          500 "INTERNAL_SERVER_ERROR" "upstream failed" [])) :=
  ⟨rfl,
   (chat_error_envelope none "2024-01-01T00:00:00" "/api/v1/chat/completions"
     [] exampleRequestNoStream
     ⟨.error (.genExc ⟨"RuntimeError", "upstream failed"⟩), []⟩
     (.genExc ⟨"RuntimeError", "upstream failed"⟩) rfl rfl).1⟩

/-- C10: every `HTTPException` raised inside either endpoint body before
streaming begins — including `BusinessException` subclasses with non-500
status — is caught by the local `except Exception` clause and re-raised
as a fresh `HTTPException(500, str(e))` carrying no `error_code` or
`field`; the resulting client response has status 500 with
`error="INTERNAL_SERVER_ERROR"` and an empty details list, so the
original status code, error code and field never reach the client. -/
theorem http_exc_masked (environment : Option String) (now path : String)
    (files : List String) (req : ChatCompletionRequest)
    (beh : ProviderBehavior) (e : HTTPExc)
    (hs : pyTruthyBool req.stream = false)
    (hr : beh.singleResult = .error (.httpExc e)) :
    completions_chat_completions req beh =
      (.raised ⟨500, toString e.status_code ++ ": " ++ e.detail,
        none, none, false⟩, 1) ∧
    colposcopy_chat_completions files req beh =
      (.raised ⟨500, toString e.status_code ++ ": " ++ e.detail,
        none, none, false⟩, 1) ∧
    appChatCompletions environment now path req beh =
      .json 500 (dumpErrorResponse (create_error_response path now 500
        "INTERNAL_SERVER_ERROR"
        (toString e.status_code ++ ": " ++ e.detail) [])) ∧
    appChatColposcopy environment now path files req beh =
      .json 500 (dumpErrorResponse (create_error_response path now 500
        "INTERNAL_SERVER_ERROR"
        (toString e.status_code ++ ": " ++ e.detail) [])) := by
  rw [appChatCompletions, appChatColposcopy, completions_chat_completions,
    colposcopy_chat_completions, hs, hr]
  simp [appDispatch, http_exception_handler, errorTypeMap, strExc]

theorem http_exc_masked_witness :
    pyTruthyBool exampleRequestNoStream.stream = false ∧
    (NotFoundException "患者不存在").status_code = 404 ∧
    completions_chat_completions exampleRequestNoStream
        ⟨.error (.httpExc (NotFoundException "患者不存在")), []⟩ =
      (.raised ⟨500, "404: 患者不存在", none, none, false⟩, 1) ∧
    appChatCompletions none "2024-01-01T00:00:00" "/api/v1/chat/completions"
        exampleRequestNoStream
        ⟨.error (.httpExc (NotFoundException "患者不存在")), []⟩ =
      .json 500 (dumpErrorResponse
        (create_error_response "/api/v1/chat/completions" "2024-01-01T00:00:00"
          500 "INTERNAL_SERVER_ERROR" "404: 患者不存在" [])) :=
  ⟨rfl, rfl,
   (http_exc_masked none "2024-01-01T00:00:00" "/api/v1/chat/completions"
     [] exampleRequestNoStream
     ⟨.error (.httpExc (NotFoundException "患者不存在")), []⟩
     (NotFoundException "患者不存在") rfl rfl).1,
   (http_exc_masked none "2024-01-01T00:00:00" "/api/v1/chat/completions"
     [] exampleRequestNoStream
     ⟨.error (.httpExc (NotFoundException "患者不存在")), []⟩
     (NotFoundException "患者不存在") rfl rfl).2.2.1⟩

/-- C7 counterexample: the validator accepts a message carrying only a
role — no `content`, no `function_call`, no `tool_calls` — because
`content` is declared `Optional[str] = None` with no cross-field
constraint (`schemas/chat.py` line 11); the claim states such a message
is rejected. -/
theorem chatmessage_content_cex :
    parseChatMessage (.obj [("role", .str "user")]) =
      some ⟨"user", none, none, none, none, none⟩ ∧
    parseChatMessage (.obj [("role", .str "user")]) ≠ none := by
  refine ⟨rfl, fun hn => ?_⟩
  rw [show parseChatMessage (.obj [("role", .str "user")]) =
    some ⟨"user", none, none, none, none, none⟩ from rfl] at hn
  cases hn

/-- C7 amended: every `ChatMessage` accepted by the validator has a role
in the enumerated set system/user/assistant/function/tool; `content` is
independently optional — for every enumerated role, a message with that
role and neither content nor function/tool calls is accepted. -/
theorem chatmessage_role_enum (v : JsonValue) (m : ChatMessage)
    (h : parseChatMessage v = some m) :
    m.role ∈ roleLits ∧
    (∀ r ∈ roleLits, parseChatMessage (.obj [("role", .str r)]) =
      some ⟨r, none, none, none, none, none⟩) := by
  refine ⟨parseChatMessage_role_mem h, fun r hr => ?_⟩
  simp [parseChatMessage, jlookup, decReq, decLitOf, hr, decOpt, bind, pure]

theorem chatmessage_role_enum_witness :
    parseChatMessage (.obj [("role", .str "assistant"), ("content", .str "好的")]) =
      some ⟨"assistant", some "好的", none, none, none, none⟩ ∧
    ("assistant" : String) ∈ roleLits :=
  ⟨rfl, (chatmessage_role_enum (.obj [("role", .str "assistant"),
    ("content", .str "好的")]) ⟨"assistant", some "好的", none, none, none, none⟩
    rfl).1⟩

/-- C9: for every JSON object accepted as a `ChatCompletionRequest`,
re-serializing the parsed request and parsing again reproduces it
exactly (no supplied field value is lost), supplied `model` and `stream`
values are stored as given, and each omitted optional field takes
exactly its documented default: `stream=false`, `max_tokens=1000`,
`temperature=0.7`, `top_p=1.0`, `n=1`, `presence_penalty=0.0`,
`frequency_penalty=0.0`, `include_patient_context=false`. -/
theorem request_roundtrip_defaults (o : Jobj) (r : ChatCompletionRequest)
    (h : parseChatCompletionRequest o = some r) :
    parseChatCompletionRequest (dumpChatCompletionRequest r) = some r ∧
    (∀ s, jlookup o "model" = some (.str s) → r.model = s) ∧
    (∀ b, jlookup o "stream" = some (.bool b) → r.stream = some b) ∧
    (jlookup o "stream" = none → r.stream = some false) ∧
    (jlookup o "max_tokens" = none → r.max_tokens = some 1000) ∧
    (jlookup o "temperature" = none → r.temperature = some (7 / 10)) ∧
    (jlookup o "top_p" = none → r.top_p = some 1) ∧
    (jlookup o "n" = none → r.n = some 1) ∧
    (jlookup o "presence_penalty" = none → r.presence_penalty = some 0) ∧
    (jlookup o "frequency_penalty" = none → r.frequency_penalty = some 0) ∧
    (jlookup o "include_patient_context" = none →
      r.include_patient_context = some false) := by
  simp only [parseChatCompletionRequest, bind, Option.bind_eq_some, pure,
    Option.some.injEq] at h
  obtain ⟨a, ha, b, hb, hr⟩ := h
  subst hr
  obtain ⟨hmodel, ⟨xs, hxs, hmsgs⟩, hmt, htemp, htp, hn, hstream, hpp, hfp⟩ :=
    parseRequestCore_inv ha
  obtain ⟨hipc, htools, hagent, hmem⟩ := parseRequestExtensions_inv hb
  refine ⟨parse_dump_request _ ⟨parseMessages_roles hmsgs, htools, hagent, hmem⟩,
    ?_, ?_, ?_, ?_, ?_, ?_, ?_, ?_, ?_, ?_⟩
  · intro s hs
    rw [hs] at hmodel
    injection hmodel with h2
    exact h2.symm
  · intro bb hb2
    rw [hb2] at hstream
    injection hstream with h2
    exact h2.symm
  · intro hnone
    rw [hnone] at hstream
    injection hstream with h2
    exact h2.symm
  · intro hnone
    rw [hnone] at hmt
    injection hmt with h2
    exact h2.symm
  · intro hnone
    rw [hnone] at htemp
    injection htemp with h2
    exact h2.symm
  · intro hnone
    rw [hnone] at htp
    injection htp with h2
    exact h2.symm
  · intro hnone
    rw [hnone] at hn
    injection hn with h2
    exact h2.symm
  · intro hnone
    rw [hnone] at hpp
    injection hpp with h2
    exact h2.symm
  · intro hnone
    rw [hnone] at hfp
    injection hfp with h2
    exact h2.symm
  · intro hnone
    rw [hnone] at hipc
    injection hipc with h2
    exact h2.symm

theorem request_roundtrip_defaults_witness :
    parseChatCompletionRequest exampleRequestJson =
      some exampleRequestNoStream ∧
    parseChatCompletionRequest
        (dumpChatCompletionRequest exampleRequestNoStream) =
      some exampleRequestNoStream ∧
    jlookup exampleRequestJson "stream" = none ∧
    exampleRequestNoStream.stream = some false :=
  ⟨rfl,
   (request_roundtrip_defaults exampleRequestJson exampleRequestNoStream
     rfl).1,
   rfl,
   (request_roundtrip_defaults exampleRequestJson exampleRequestNoStream
     rfl).2.2.2.1 rfl⟩

end ChatRelay
